import Mathlib

/-!
Shallow embedding of the PTLsim out-of-order core simulator
(`ooocore.cpp`) and its configuration parser (`config.cpp`), together
with theorems settling the specification claims about them.

Machine integers (`W64`, `byte`) are modelled as `Nat` with explicit
`% 2 ^ w` where the C code truncates.  Sizes and constants defined in
headers that are not part of this repository snapshot
(`LDQ_SIZE`, `MAX_FORWARDING_LATENCY`, `PHYS_REG_NULL`,
`VIRT_ADDR_BITS`, `virt_addr_mask`, the `EXCEPTION_*` codes, the
`REG_*` architectural indices) are kept as explicit parameters.
-/

namespace PTLsim

/-- Result code `ISSUE_COMPLETED = 1` of the issue path (`ooocore.cpp` 2199-2203). -/
def ISSUE_COMPLETED : Int := 1

/-- Result code `ISSUE_NEEDS_REPLAY = 0` of the issue path (`ooocore.cpp` 2199-2203). -/
def ISSUE_NEEDS_REPLAY : Int := 0

/-- Result code `ISSUE_MISSPECULATED = -1` of the issue path (`ooocore.cpp` 2199-2203). -/
def ISSUE_MISSPECULATED : Int := -1

/-! ## Configuration parsing (`config.cpp`) -/

/-- Initial value of `include_dyn_linker` (`config.cpp` line 40:
`W64 include_dyn_linker = 1;`), the variable backing the `-excludeld`
boolean option (`config.cpp` line 84). -/
def include_dyn_linker_init : Nat := 1

/-- Effect of one occurrence of an `OPTION_TYPE_BOOL` flag in
`parse_options` (`config.cpp` 233-235):
`*((W64*)variable) = (!(*((W64*)variable)));` — C logical negation of the
current `W64` value, yielding `1` for zero and `0` for nonzero. -/
def parse_bool_option (v : Nat) : Nat := if v = 0 then 1 else 0

/-- Value of a boolean option's backing variable after its flag appears
`n` times on the command line, starting from `v`. -/
def parse_bool_option_times (n v : Nat) : Nat := parse_bool_option^[n] v

/-! ## Physical-register reference counting (`ooocore.cpp`) -/

/-- `PhysicalRegister::addref` (`ooocore.cpp` 854):
`void addref() { if (nonnull()) refcount++; }` where `nonnull()` is
`index() != PHYS_REG_NULL` (line 865).  `physRegNull` is the
`PHYS_REG_NULL` constant from the missing header and `idx` the
register's index. -/
def physreg_addref (physRegNull idx refcount : Nat) : Nat :=
  if idx ≠ physRegNull then refcount + 1 else refcount

/-- `PhysicalRegister::unref` (`ooocore.cpp` 855):
`void unref() { if (nonnull()) refcount--; assert(refcount >= 0); }`.
The refcount is modelled as `Nat`; the decrement saturates at 0,
matching the code's `refcount >= 0` assertion on all reachable states. -/
def physreg_unref (physRegNull idx refcount : Nat) : Nat :=
  if idx ≠ physRegNull then refcount - 1 else refcount

/-- Apply a sequence of refcount operations (`true` = `addref`,
`false` = `unref`) to the register with index `idx`.  All the
specialised entry points (`addspecref`, `addcommitref`, the
ROB-operand `addref`, and the `un...` forms) reduce to these two
(`ooocore.cpp` 857-862). -/
def physreg_refcount_ops (physRegNull idx : Nat) (ops : List Bool) (refcount : Nat) : Nat :=
  ops.foldl
    (fun rc op =>
      if op then physreg_addref physRegNull idx rc else physreg_unref physRegNull idx rc)
    refcount

/-- Reference sum computed by the debug checker `check_refcounts`
(`ooocore.cpp` 4283-4299): the number of occurrences of physreg index
`i` among all ROB operand slots and all `commitrrt`/`specrrt` entries
(`refs` is their concatenation), except that the slot for
`PHYS_REG_NULL` is forced to `0` afterwards (line 4299:
`refcounts[PHYS_REG_NULL] = 0;`). -/
def check_refcounts_expected (physRegNull : Nat) (refs : List Nat) (i : Nat) : Nat :=
  if i = physRegNull then 0 else refs.count i

/-! ## Top-level driver deadlock warning (`ooocore.cpp`) -/

/-- Driver-loop state relevant to the possible-deadlock warning:
`sim_cycle` and `last_commit_at_cycle` (`ooocore.cpp` 3835). -/
structure DriverState where
  simCycle : Nat
  lastCommit : Nat
deriving DecidableEq, Repr

/-- The top-of-cycle deadlock check of `out_of_order_core_toplevel_loop`
(`ooocore.cpp` 4354-4358):
`if ((sim_cycle - last_commit_at_cycle) > 1024)` print a warning naming
`sim_cycle - last_commit_at_cycle` cycles without a commit, and break
out of the loop.  Returns the count named by the warning when it fires. -/
def driver_deadlock_warning (s : DriverState) : Option Nat :=
  if 1024 < s.simCycle - s.lastCommit then some (s.simCycle - s.lastCommit) else none

/-- One driver-loop iteration after the warning check:
`last_commit_at_cycle = sim_cycle` whenever a uop committed this cycle
(`ooocore.cpp` 3871), then `sim_cycle++` (line 4398). -/
def driver_cycle (s : DriverState) (committed : Bool) : DriverState :=
  { simCycle := s.simCycle + 1
    lastCommit := if committed then s.simCycle else s.lastCommit }

/-- Driver state at the top of the cycle right after a commit happened
during cycle `c`. -/
def driver_after_commit (c : Nat) : DriverState :=
  { simCycle := c + 1, lastCommit := c }

/-! ## Transfer stage and forward-cycle invariant (`ooocore.cpp`) -/

/-- The ROB fields consulted by the `transfer` stage: `forward_cycle`
(`fc`), the assigned cluster, `entry_valid`, membership of
`rob_completed_list[cluster]`, and, when the entry was moved to
`rob_ready_to_writeback_list[cl]`, the cluster `cl` it was moved to. -/
structure FwdRob where
  entryValid : Bool
  cluster : Nat
  fc : Nat
  completed : Bool
  readyToWritebackOf : Option Nat
deriving DecidableEq, Repr

/-- Per-ROB body of `transfer` (`ooocore.cpp` 3409-3416): each ROB on
`rob_completed_list[cluster]` increments `forward_cycle`; when it
exceeds `MAX_FORWARDING_LATENCY` it is clamped to that maximum and the
ROB moves to `rob_ready_to_writeback_list[rob->cluster]`.  Entries not
on the completed list are untouched. -/
def transfer_rob (maxFwdLatency : Nat) (r : FwdRob) : FwdRob :=
  if r.completed then
    let f := r.fc + 1
    if maxFwdLatency < f then
      { r with fc := maxFwdLatency, completed := false, readyToWritebackOf := some r.cluster }
    else
      { r with fc := f }
  else r

/-- The transfer stage over the whole ROB array (all clusters). -/
def transfer (maxFwdLatency : Nat) (robs : List FwdRob) : List FwdRob :=
  robs.map (transfer_rob maxFwdLatency)

/-- The `check_rob` debug assertion on the forwarding counter
(`ooocore.cpp` 647-652): every valid ROB entry has
`inrange(forward_cycle, 0, (MAX_FORWARDING_LATENCY+1)-1)`, i.e.
`0 ≤ forward_cycle ≤ MAX_FORWARDING_LATENCY` (the lower bound is
implicit in the `Nat` model). -/
def check_rob_forward_cycle (maxFwdLatency : Nat) (robs : List FwdRob) : Prop :=
  ∀ r ∈ robs, r.entryValid = true → r.fc ≤ maxFwdLatency

instance (maxFwdLatency : Nat) (robs : List FwdRob) :
    Decidable (check_rob_forward_cycle maxFwdLatency robs) :=
  inferInstanceAs (Decidable (∀ r ∈ robs, r.entryValid = true → r.fc ≤ maxFwdLatency))

/-! ## Rename-stage structural hazard checks (`ooocore.cpp`) -/

/-- The stall causes of the per-uop structural checks in `rename()`
(`ooocore.cpp` 1455-1495), in source order. -/
inductive RenameStall
  | fetchqEmpty
  | robFull
  | physregsFull
  | ldqFull
  | stqFull
  | memqFull
deriving DecidableEq, Repr

/-- The early-exit checks of `rename()` for the next fetch-queue entry
(`ooocore.cpp` 1455-1495).  Note that line 1486 compares
`stores_in_flight` against `LDQ_SIZE`, the load-queue capacity, not
against `STQ_SIZE`: the model consequently has no `stqSize` input at
all.  `lsqRemaining` stands for `LSQ.remaining()`. -/
def rename_stall_check (ldqSize : Nat) (fetchqEmpty robFull physregsFull : Bool)
    (ld st : Bool) (loadsInFlight storesInFlight : Nat) (lsqRemaining : Bool) :
    Option RenameStall :=
  if fetchqEmpty then some .fetchqEmpty
  else if robFull then some .robFull
  else if physregsFull then some .physregsFull
  else if ld && decide (ldqSize ≤ loadsInFlight) then some .ldqFull
  else if st && decide (ldqSize ≤ storesInFlight) then some .stqFull
  else if (ld || st) && !lsqRemaining then some .memqFull
  else none

/-! ## Branch direction check at issue (`ooocore.cpp`) -/

/-- Effects of the post-execution branch check in
`ReorderBufferEntry::issue` (`ooocore.cpp` 3194-3287). -/
structure BranchIssueOut where
  annulled : Bool
  fetchRip : Option Nat
  correctCounted : Bool
  mispredictCounted : Bool
  result : Int
deriving DecidableEq, Repr

/-- The tail of `ReorderBufferEntry::issue` for a register-writing uop
(`ooocore.cpp` 3194-3287).  `valid` is `physreg->valid()` after the
semantic callback ran (no `FLAG_INV`), `data` is `physreg->data` (the
produced RIP for branches), and `riptaken` the predicted taken target
recorded in the uop.  `mispredicted = (physreg->data != uop.riptaken)`
(line 3213); a valid mispredicted branch is counted, annulled after
(`annul_after()`), and fetch is redirected to the produced RIP
(`reset_fetch_unit(realrip)`), returning `-1`; a valid branch whose
produced RIP matches is counted as a correct prediction and issue
returns `+1` with no annulment and no fetch reset. -/
def issue_branch_check (br valid : Bool) (data riptaken : Nat) : BranchIssueOut :=
  if valid then
    if br then
      if data ≠ riptaken then
        { annulled := true, fetchRip := some data, correctCounted := false
          mispredictCounted := true, result := ISSUE_MISSPECULATED }
      else
        { annulled := false, fetchRip := none, correctCounted := true
          mispredictCounted := false, result := ISSUE_COMPLETED }
    else
      { annulled := false, fetchRip := none, correctCounted := false
        mispredictCounted := false, result := ISSUE_COMPLETED }
  else
    { annulled := false, fetchRip := none, correctCounted := false
      mispredictCounted := false, result := ISSUE_COMPLETED }

/-! ## Annulment (`ooocore.cpp`, `ReorderBufferEntry::annul`) -/

/-- The uop fields consulted by `ReorderBufferEntry::annul`. -/
structure AnnulUop where
  som : Bool
  eom : Bool
  rip : Nat
  riptaken : Nat
deriving DecidableEq, Repr, Inhabited

/-- `somidx`: scan backward from the triggering index `t` until a uop
with the SOM bit (`ooocore.cpp` 2899-2900:
`while (!ROB[somidx].uop.som) somidx--`, modulo `ROB_SIZE`).  The ROB's
valid entries are listed head-first, the triggering uop at index `t`;
the decoder guarantees a SOM uop at or before `t`. -/
def annul_somidx (robs : List AnnulUop) (t : Nat) : Nat :=
  t - (robs.take (t + 1)).reverse.findIdx (·.som)

/-- `eomidx`: scan forward from the triggering index `t` until a uop
with the EOM bit (`ooocore.cpp` 2901-2902). -/
def annul_eomidx (robs : List AnnulUop) (t : Nat) : Nat :=
  t + (robs.drop t).findIdx (·.eom)

/-- Return value of `ReorderBufferEntry::annul(keep_misspec_uop)`
(`ooocore.cpp` 2891-3046).  `robs` lists the valid ROB entries
head-first in program order, so `robs.length` plays `ROB.tail`;
`t` is the index of the triggering uop.
`startidx = (keep_misspec_uop) ? eomidx + 1 : somidx` (line 2905); when
`startidx == ROB.tail` there is nothing to annul and the triggering
uop's own `rip` is returned (lines 2906-2913); otherwise the function
returns `ROB[startidx].uop.riptaken` in keep-misspec-uop mode and
`ROB[startidx].uop.rip` otherwise (line 3045); the annulled entries'
uop payloads survive `ROB.annul` (`reset()` does not clear `uop`). -/
def annul_return (robs : List AnnulUop) (t : Nat) (keepMisspecUop : Bool) : Nat :=
  let startidx := if keepMisspecUop then annul_eomidx robs t + 1 else annul_somidx robs t
  if startidx = robs.length then (robs.getD t default).rip
  else if keepMisspecUop then (robs.getD startidx default).riptaken
  else (robs.getD startidx default).rip

/-- ROB contents refuting claim C4: a mispredicted single-uop branch
macro-op at index 0 with taken target 200, followed by one younger uop
whose (meaningless, non-branch) `riptaken` field is 999. -/
def c4_robs_cx : List AnnulUop :=
  [{ som := true, eom := true, rip := 100, riptaken := 200 },
   { som := true, eom := true, rip := 200, riptaken := 999 }]

/-- ROB contents for the C4 witness: a single-uop branch macro-op at
index 0 followed by a two-uop macro-op, whose first (SOM) uop carries
`riptaken = 55`. -/
def c4_robs_w : List AnnulUop :=
  [{ som := true, eom := true, rip := 100, riptaken := 200 },
   { som := true, eom := false, rip := 300, riptaken := 55 },
   { som := false, eom := true, rip := 300, riptaken := 0 }]

/-! ## Commit (`ooocore.cpp`, `ReorderBufferEntry::commit`) -/

/-- The per-uop fields consulted by the macro-op scan of
`ReorderBufferEntry::commit`: `ready_to_commit()` (membership of
`rob_ready_to_commit_queue`), `has_exception()`
(`physreg->flags & FLAG_INV`), the exception payload `physreg->data`,
and the EOM bit. -/
structure CommitSubRob where
  ready : Bool
  exc : Bool
  excData : Nat
  eom : Bool
deriving DecidableEq, Repr

/-- Outcome of the macro-op scan. -/
inductive CommitScan
  | notAllReady
  | excepted (code : Nat)
  | commitable
deriving DecidableEq, Repr

/-- The macro-op scan of `ReorderBufferEntry::commit`
(`ooocore.cpp` 3630-3645), walking the ROB forward from the committing
uop: stop with `notAllReady` at the first uop not in `ready_to_commit`,
with `excepted` (recording `physreg->data` into `ctx.exception`) at the
first ready uop whose destination physreg carries `FLAG_INV`, and with
`commitable` on passing an EOM uop — or on exhausting the valid entries
(`foreach_forward_from` stops at `ROB.tail`). -/
def commit_scan : List CommitSubRob → CommitScan
  | [] => .commitable
  | r :: rest =>
    if !r.ready then .notAllReady
    else if r.exc then .excepted r.excData
    else if r.eom then .commitable
    else commit_scan rest

/-- All uops from the committing uop through the first EOM uop, i.e.
the part of its macro-op still present in the ROB (the whole list when
no EOM uop has been renamed yet). -/
def uop_range_to_eom : List CommitSubRob → List CommitSubRob
  | [] => []
  | r :: rest => if r.eom then [r] else r :: uop_range_to_eom rest

/-- Return codes of `ReorderBufferEntry::commit` (`COMMIT_RESULT_*`). -/
inductive CommitResult
  | ok
  | none
  | exception
  | barrier
deriving DecidableEq, Repr

/-- The `REG_zf`/`REG_cf`/`REG_of` architectural indices (from the
missing header), used for the flag rename-table updates at commit. -/
structure ArchRegs where
  regZf : Nat
  regCf : Nat
  regOf : Nat
deriving DecidableEq, Repr

/-- Architectural state touched by commit: the committed rename table
(`commitrrt`, indexed by architectural register), the architectural RIP
and flags (`ctx.commitarf[REG_rip]`, `ctx.commitarf[REG_flags]`), and
committed memory (`commitstore_unlocked(*lsq)`), modelled as a log of
`(physaddr, bytemask, data)` writes. -/
structure ArchState where
  commitrrt : List Nat
  rip : Nat
  flags : Nat
  mem : List (Nat × Nat × Nat)
deriving DecidableEq, Repr

/-- The committing uop's payload as consulted by the architectural
updates of `ReorderBufferEntry::commit` (`ooocore.cpp` 3654-3832):
`rdCanCommit` is `archdest_can_commit[uop.rd]`, `rdIsRip` is
`uop.rd == REG_rip`, `bytes` the macro-op length,
`setflagsMask` is `setflags_to_x86_flags[uop.setflags]`, and
`setZf`/`setCf`/`setOf` the `uop.setflags & SETFLAG_*` bits. -/
structure CommitUop where
  rd : Nat
  rdCanCommit : Bool
  rdIsRip : Bool
  eom : Bool
  bytes : Nat
  nouserflags : Bool
  setflagsMask : Nat
  setZf : Bool
  setCf : Bool
  setOf : Bool
  isStore : Bool
  isBarrier : Bool
  physregIdx : Nat
  physregData : Nat
  physregFlags : Nat
  lsqPhysaddr : Nat
  lsqBytemask : Nat
  lsqData : Nat
deriving DecidableEq, Repr

/-- `ReorderBufferEntry::commit` (`ooocore.cpp` 3605-3833) for the uop
at the ROB head, with `subrobs` the valid entries from the head to the
tail.  When the scan finds an unready uop the result is
`COMMIT_RESULT_NONE` (line 3649); when it finds an exception the result
is `COMMIT_RESULT_EXCEPTION` (line 3681) — in both cases before any of
the architectural updates.  On a successful commit: update
`commitrrt[uop.rd]` (3693-3700), advance the architectural RIP on EOM
(3702-3709), merge the user flags and update the flag rename-table
entries per the `setflags` mask (3711-3741), commit the store to memory
(3743-3746), and return `COMMIT_RESULT_BARRIER` for barrier uops, else
`COMMIT_RESULT_OK` (3825-3832). -/
def ReorderBufferEntry_commit (regs : ArchRegs) (st : ArchState) (uop : CommitUop)
    (subrobs : List CommitSubRob) : CommitResult × ArchState :=
  match commit_scan subrobs with
  | .notAllReady => (.none, st)
  | .excepted _ => (.exception, st)
  | .commitable =>
    let st1 :=
      if uop.rdCanCommit then { st with commitrrt := st.commitrrt.set uop.rd uop.physregIdx }
      else st
    let st2 :=
      if uop.eom then
        { st1 with rip := if uop.rdIsRip then uop.physregData else st1.rip + uop.bytes }
      else st1
    let st3 :=
      if !uop.nouserflags then
        let newflags :=
          Nat.lor (Nat.land st2.flags (2 ^ 64 - 1 - uop.setflagsMask))
            (Nat.land uop.physregFlags uop.setflagsMask)
        let stf := { st2 with flags := newflags }
        let stz :=
          if uop.setZf then { stf with commitrrt := stf.commitrrt.set regs.regZf uop.physregIdx }
          else stf
        let stc :=
          if uop.setCf then { stz with commitrrt := stz.commitrrt.set regs.regCf uop.physregIdx }
          else stz
        if uop.setOf then { stc with commitrrt := stc.commitrrt.set regs.regOf uop.physregIdx }
        else stc
      else st2
    let st4 :=
      if uop.isStore then { st3 with mem := (uop.lsqPhysaddr, uop.lsqBytemask, uop.lsqData) :: st3.mem }
      else st3
    (if uop.isBarrier then .barrier else .ok, st4)

/-- Concrete `ArchRegs` for the C2 counterexample and witnesses. -/
def c2_regs_cx : ArchRegs := { regZf := 1, regCf := 2, regOf := 3 }

/-- Concrete architectural state for the C2 counterexample. -/
def c2_st_cx : ArchState := { commitrrt := [5, 6, 7, 8], rip := 100, flags := 0, mem := [] }

/-- Concrete committing-uop payload for the C2 counterexample. -/
def c2_uop_cx : CommitUop :=
  { rd := 0, rdCanCommit := true, rdIsRip := false, eom := false, bytes := 4
    nouserflags := true, setflagsMask := 0, setZf := false, setCf := false, setOf := false
    isStore := false, isBarrier := false, physregIdx := 9, physregData := 0
    physregFlags := 0, lsqPhysaddr := 0, lsqBytemask := 0, lsqData := 0 }

/-- ROB contents refuting claim C2: the head uop of the macro-op is not
yet `ready_to_commit`, while the second (EOM) uop carries an exception
(`FLAG_INV`, payload 7). -/
def c2_robs_cx : List CommitSubRob :=
  [{ ready := false, exc := false, excData := 0, eom := false },
   { ready := true, exc := true, excData := 7, eom := true }]

/-! ## Store issue (`ooocore.cpp`, `ReorderBufferEntry::issuestore`) -/

/-- Configuration constants used by `issuestore` that live in headers
not present in this repository snapshot: `VIRT_ADDR_BITS`, the
`virt_addr_mask` internal MSR (`ooocore.cpp` 2231), and the
`EXCEPTION_*` codes.  The theorems hold for every instantiation (with
the stated hypotheses), so they stay parameters. -/
structure StoreConfig where
  virtAddrBits : Nat
  virtAddrMask : Nat
  excUnalignedAccess : Nat
  excPageFaultOnWrite : Nat
  excLoadStoreAliasing : Nat
deriving DecidableEq, Repr

/-- `lowbits(x, n)`: the low `n` bits of `x`. -/
def lowbits (x n : Nat) : Nat := x % 2 ^ n

/-- `floor(x, 8)`: round down to a multiple of 8 (the 8-byte block base). -/
def floor8 (x : Nat) : Nat := x / 8 * 8

/-- The load/store alignment variant stored in `uop.cond`
(`LDST_ALIGN_NORMAL` / `LDST_ALIGN_LO` / `LDST_ALIGN_HI`). -/
inductive Aligntype
  | normal
  | lo
  | hi
deriving DecidableEq, Repr

/-- An LSQ entry as consulted by the scans in `issuestore`: the `SFR`
fields plus the owning uop's RIP (used by
`lsap.select(ldbuf.rob->uop.rip)`). -/
structure LSQScanEntry where
  store : Bool
  addrvalid : Bool
  datavalid : Bool
  physaddr : Nat
  data : Nat
  bytemask : Nat
  rip : Nat
deriving DecidableEq, Repr

/-- Results of the address generation of `issuestore`
(`ooocore.cpp` 2261-2283). -/
structure StoreAddr where
  origaddr : Nat
  addr : Nat
  annul : Bool
  physaddr : Nat
deriving DecidableEq, Repr

/-- Address generation of `issuestore` (`ooocore.cpp` 2261-2283):
`raddr = (ra + rb) & virt_addr_mask` (a 64-bit add), kept as
`origaddr`; for `LDST_ALIGN_LO` round down to the 8-byte block, for
`LDST_ALIGN_HI` round down and step to the next block, with
`annul = (floor(origaddr + ((1<<sizeshift)-1), 8) == raddr)` (line
2277) recording that no byte of the user access touches the high
block; then `addr = lowbits(raddr, VIRT_ADDR_BITS)` and
`physaddr = addr >> 3`. -/
def store_addr (cfg : StoreConfig) (aligntype : Aligntype) (sizeshift ra rb : Nat) :
    StoreAddr :=
  let origaddr := Nat.land ((ra + rb) % 2 ^ 64) cfg.virtAddrMask
  let raddr :=
    match aligntype with
    | .normal => origaddr
    | .lo => floor8 origaddr
    | .hi => floor8 origaddr + 8
  let annul :=
    match aligntype with
    | .hi => floor8 (origaddr + (2 ^ sizeshift - 1)) == floor8 origaddr
    | _ => false
  let addr := lowbits raddr cfg.virtAddrBits
  { origaddr := origaddr, addr := addr, annul := annul, physaddr := addr / 8 }

/-- `check_access_alignment` (`ooocore.cpp` 2183-2197): unaligned
accesses raise `EXCEPTION_UnalignedAccess`; an annulled high half or an
internal access skips all further checks; otherwise the page table is
consulted (`asp.fastcheck(addr, top)`, modelled by `mapped`) and the
caller's exception code is returned for an unmapped page.  `0` means no
exception. -/
def check_access_alignment (cfg : StoreConfig) (addr : Nat) (annul : Bool)
    (sizeshift : Nat) (internal : Bool) (mapped : Bool) (exception : Nat) : Nat :=
  if lowbits addr sizeshift ≠ 0 then cfg.excUnalignedAccess
  else if annul || internal then 0
  else if mapped then 0
  else exception

/-- The exception computed for a store's generated address
(`ooocore.cpp` 2318), with `mapped` standing for the address space's
`fastcheck` on the generated address. -/
def store_exception (cfg : StoreConfig) (mapped : Nat → Bool) (aligntype : Aligntype)
    (sizeshift : Nat) (internal : Bool) (ra rb : Nat) : Nat :=
  let a := store_addr cfg aligntype sizeshift ra rb
  check_access_alignment cfg a.addr a.annul sizeshift internal (mapped a.addr)
    cfg.excPageFaultOnWrite

/-- The backward STQ scan (`ooocore.cpp` 2375-2383): the most recent
prior store to the same 8-byte block, or any prior store whose address
is still unresolved.  `prior` lists the LSQ entries before this store,
most recent first (`foreach_backward_before`). -/
def find_sfra (physaddr : Nat) (prior : List LSQScanEntry) : Option LSQScanEntry :=
  prior.find? fun e => e.store && (!e.addrvalid || (e.addrvalid && e.physaddr == physaddr))

/-- `ready` (`ooocore.cpp` 2385): no inherited SFR, or the inherited
SFR has both address and data valid — and the `rc` operand is ready. -/
def store_ready (sfra : Option LSQScanEntry) (rcready : Bool) : Bool :=
  (match sfra with
   | Option.none => true
   | some e => e.addrvalid && e.datavalid) && rcready

/-- The forward LDQ scan (`ooocore.cpp` 2444-2450): the first later
load with a valid address to the same 8-byte block.  `later` lists the
LSQ entries after this store in program order
(`foreach_forward_after`). -/
def find_alias_load (physaddr : Nat) (later : List LSQScanEntry) : Option LSQScanEntry :=
  later.find? fun e => !e.store && e.addrvalid && e.physaddr == physaddr

/-- Byte-granular merge performed via
`mux64(expand_8bit_to_64bit_lut[bytemask], sfra->data, rc)`
(`ooocore.cpp` 2499; helpers from the missing header, semantics fixed
by their use here): byte `i` of the result is byte `i` of `rc` when bit
`i` of `bytemask` is set, else byte `i` of `old`. -/
def merge_bytes (bytemask old rc : Nat) : Nat :=
  (List.range 8).foldl
    (fun acc i =>
      acc + (if (bytemask >>> i) % 2 = 1 then (rc >>> (8 * i)) % 256
             else (old >>> (8 * i)) % 256) * 256 ^ i)
    0

/-- The final LSQ-entry (`SFR`) fields written by `issuestore`. -/
structure SFRState where
  physaddr : Nat
  invalid : Bool
  datavalid : Bool
  addrvalid : Bool
  data : Nat
  bytemask : Nat
deriving DecidableEq, Repr

/-- Which return of `issuestore` fired. -/
inductive StorePath
  | unalignedMisspec
  | exceptionComplete
  | replay
  | aliasMisspec
  | merged
deriving DecidableEq, Repr

/-- The outcome of `issuestore`: the written LSQ state, the
`ISSUE_*` result code, the RIP inserted into the load/store alias
predictor (`lsap.select`), whether `annul_after_and_including()` was
called, the `reset_fetch_unit` argument, and the inherited SFR chosen
as the replayed store's `rs` dependency. -/
structure StoreIssueOut where
  path : StorePath
  state : SFRState
  result : Int
  lsapInsert : Option Nat
  annulIncludingSelf : Bool
  fetchRip : Option Nat
  rsSfra : Option LSQScanEntry
deriving DecidableEq, Repr

/-- `ReorderBufferEntry::issuestore` (`ooocore.cpp` 2251-2515).
After address generation the entry is marked
`addrvalid=1, datavalid=0, invalid=0` (2283-2290).  An exception marks
the entry invalid with the exception code as data (2320-2323); for
`EXCEPTION_UnalignedAccess` the basic block is retranslated, everything
from the store on is annulled, fetch restarts at the store's macro-op
RIP (the return of `annul_after_and_including()`, the SOM uop's `rip`)
and the result is `ISSUE_MISSPECULATED` (2330-2357); other exceptions
return `ISSUE_COMPLETED` (2362).  Otherwise the STQ is scanned backward
for an inherited SFR; if it or the `rc` operand is not ready the store
replays with `operands[RS]` retargeted (2405-2433).  Otherwise the LDQ
is scanned forward: a later load with a valid address to the same
8-byte block marks the store `EXCEPTION_LoadStoreAliasing`, inserts the
load's RIP into the LSAP, annuls from the store on, restarts fetch at
the store's own RIP and returns `ISSUE_MISSPECULATED` (2444-2481).
Otherwise the store data is shifted per the alignment variant, merged
with the inherited SFR bytes, and the entry marked valid (2487-2515). -/
def issuestore (cfg : StoreConfig) (mapped : Nat → Bool) (aligntype : Aligntype)
    (sizeshift : Nat) (internal : Bool) (rip ra rb rc : Nat) (rcready : Bool)
    (prior later : List LSQScanEntry) : StoreIssueOut :=
  let a := store_addr cfg aligntype sizeshift ra rb
  let exc := store_exception cfg mapped aligntype sizeshift internal ra rb
  if exc ≠ 0 then
    let st : SFRState :=
      { physaddr := a.physaddr, invalid := true, datavalid := true, addrvalid := true
        data := exc, bytemask := 0 }
    if exc = cfg.excUnalignedAccess then
      { path := .unalignedMisspec, state := st, result := ISSUE_MISSPECULATED
        lsapInsert := Option.none, annulIncludingSelf := true, fetchRip := some rip
        rsSfra := Option.none }
    else
      { path := .exceptionComplete, state := st, result := ISSUE_COMPLETED
        lsapInsert := Option.none, annulIncludingSelf := false, fetchRip := Option.none
        rsSfra := Option.none }
  else
    let sfra := find_sfra a.physaddr prior
    if !store_ready sfra rcready then
      { path := .replay
        state := { physaddr := a.physaddr, invalid := false, datavalid := false
                   addrvalid := true, data := 0, bytemask := 0 }
        result := ISSUE_NEEDS_REPLAY, lsapInsert := Option.none
        annulIncludingSelf := false, fetchRip := Option.none, rsSfra := sfra }
    else
      match find_alias_load a.physaddr later with
      | some ld =>
        { path := .aliasMisspec
          state := { physaddr := a.physaddr, invalid := true, datavalid := true
                     addrvalid := true, data := cfg.excLoadStoreAliasing, bytemask := 0 }
          result := ISSUE_MISSPECULATED, lsapInsert := some ld.rip
          annulIncludingSelf := true, fetchRip := some rip, rsSfra := Option.none }
      | Option.none =>
        let shiftL := lowbits a.origaddr 3
        let bytemask : Nat :=
          match aligntype with
          | .normal | .lo => ((2 ^ 2 ^ sizeshift - 1) <<< shiftL) % 2 ^ 8
          | .hi => ((2 ^ 2 ^ sizeshift - 1) >>> (8 - shiftL)) % 2 ^ 8
        let rcShifted : Nat :=
          match aligntype with
          | .normal | .lo => (rc <<< (8 * shiftL)) % 2 ^ 64
          | .hi => rc >>> (8 * (8 - shiftL))
        let data :=
          match sfra with
          | some s => merge_bytes bytemask s.data rcShifted
          | Option.none => rcShifted
        let bm :=
          match sfra with
          | some s => Nat.lor s.bytemask bytemask
          | Option.none => bytemask
        { path := .merged
          state := { physaddr := a.physaddr, invalid := false, datavalid := true
                     addrvalid := true, data := data, bytemask := bm }
          result := ISSUE_COMPLETED, lsapInsert := Option.none
          annulIncludingSelf := false, fetchRip := Option.none, rsSfra := Option.none }

/-- Concrete `StoreConfig` for the C1 and C6 witnesses: 16 virtual
address bits, a 16-bit `virt_addr_mask`, and distinct nonzero exception
codes. -/
def store_cfg_w : StoreConfig :=
  { virtAddrBits := 16, virtAddrMask := 65535, excUnalignedAccess := 1
    excPageFaultOnWrite := 2, excLoadStoreAliasing := 3 }

/-- A later-in-program-order load LSQ entry with a valid address on
8-byte block 1, owned by a uop at RIP 22 (for the C1 witness). -/
def c1_load_w : LSQScanEntry :=
  { store := false, addrvalid := true, datavalid := true, physaddr := 1
    data := 0, bytemask := 0, rip := 22 }

/-! ## Helper lemmas -/

/-- Refcount operations on the null register leave its count unchanged. -/
theorem physreg_refcount_ops_null (p : Nat) (ops : List Bool) (rc : Nat) :
    physreg_refcount_ops p p ops rc = rc := by
  induction ops generalizing rc with
  | nil => rfl
  | cons op ops ih =>
    have hstep : (if op then physreg_addref p p rc else physreg_unref p p rc) = rc := by
      cases op <;> simp [physreg_addref, physreg_unref]
    simp only [physreg_refcount_ops, List.foldl_cons] at ih ⊢
    rw [hstep]
    exact ih rc

/-- After a commit during cycle `c`, `n` commit-free driver cycles
leave `last_commit_at_cycle = c` and `sim_cycle = c + 1 + n`. -/
theorem driver_nocommit_iterate (c n : Nat) :
    (fun s => driver_cycle s false)^[n] (driver_after_commit c) =
      { simCycle := c + 1 + n, lastCommit := c } := by
  induction n with
  | zero => rfl
  | succ n ih =>
    rw [Function.iterate_succ_apply', ih]
    rfl

/-- A satisfying element in a list makes `find?` succeed, and the
returned element satisfies the predicate. -/
theorem find_some_of_exists {α : Type} {p : α → Bool} {l : List α}
    (h : ∃ x ∈ l, p x = true) : ∃ y, l.find? p = some y ∧ p y = true := by
  have hs : (l.find? p).isSome := List.find?_isSome.mpr h
  rcases ho : l.find? p with _ | y
  · rw [ho] at hs; simp at hs
  · exact ⟨y, rfl, List.find?_some ho⟩

/-! ## Claim theorems -/

/-- C10: parsing a boolean configuration option inverts the backing
variable rather than setting it to true: `-excludeld` given once flips
`include_dyn_linker` from its default 1 to 0 (disabling it), giving it
twice restores the default, and in general one occurrence maps any
nonzero value to 0 and zero to 1. -/
theorem c10_bool_option_toggles :
    parse_bool_option_times 1 include_dyn_linker_init = 0 ∧
    parse_bool_option_times 2 include_dyn_linker_init = include_dyn_linker_init ∧
    (∀ v : Nat, v ≠ 0 → parse_bool_option v = 0) ∧
    parse_bool_option 0 = 1 := by
  refine ⟨rfl, rfl, ?_, rfl⟩
  intro v hv
  simp [parse_bool_option, hv]

/-- Witness for `c10_bool_option_toggles` at the nonzero value 1. -/
theorem c10_bool_option_toggles_witness :
    (1 : Nat) ≠ 0 ∧ parse_bool_option 1 = 0 :=
  ⟨by decide, c10_bool_option_toggles.2.2.1 1 (by decide)⟩

/-- C9: reference counting never applies to the null physical register:
any sequence of `addref`/`unref` operations on the register whose index
is `PHYS_REG_NULL` leaves its refcount at 0, the reference sum computed
by `check_refcounts` is forced to 0 for exactly that register, and for
every other register it is the true count of references. -/
theorem c9_null_physreg_never_refcounted :
    (∀ (physRegNull : Nat) (ops : List Bool),
      physreg_refcount_ops physRegNull physRegNull ops 0 = 0) ∧
    (∀ (physRegNull : Nat) (refs : List Nat),
      check_refcounts_expected physRegNull refs physRegNull = 0) ∧
    (∀ (physRegNull i : Nat) (refs : List Nat), i ≠ physRegNull →
      check_refcounts_expected physRegNull refs i = refs.count i) := by
  refine ⟨fun p ops => physreg_refcount_ops_null p ops 0, ?_, ?_⟩
  · intro p refs
    simp [check_refcounts_expected]
  · intro p i refs h
    simp [check_refcounts_expected, h]

/-- Witness for `c9_null_physreg_never_refcounted` with
`PHYS_REG_NULL = 0` and a non-null register 1 referenced twice. -/
theorem c9_null_physreg_never_refcounted_witness :
    (1 : Nat) ≠ 0 ∧ check_refcounts_expected 0 [0, 1, 1, 0] 1 = [0, 1, 1, 0].count 1 :=
  ⟨by decide, c9_null_physreg_never_refcounted.2.2 0 1 [0, 1, 1, 0] (by decide)⟩

/-- C8 counterexample: with a commit during cycle 0 followed by 1023
commit-free cycles, the driver sits at `sim_cycle = 1024` with
`last_commit_at_cycle = 0` — 1024 cycles tracked without a commit —
yet the top-of-cycle check emits no possible-deadlock warning, because
the code requires `sim_cycle - last_commit_at_cycle > 1024`. -/
theorem c8_deadlock_warning_counterexample :
    (fun s => driver_cycle s false)^[1023] (driver_after_commit 0) =
      { simCycle := 1024, lastCommit := 0 } ∧
    driver_deadlock_warning { simCycle := 1024, lastCommit := 0 } = Option.none := by
  refine ⟨by rw [driver_nocommit_iterate], by decide⟩

/-- C8 (amended): the possible-deadlock warning fires exactly when
strictly more than 1024 cycles have elapsed since
`last_commit_at_cycle`: after a commit during cycle `c` and `n`
subsequent commit-free cycles the tracked difference is `n + 1`, and
the top-of-cycle check warns — naming that difference — iff
`n + 1 > 1024`, so the first warning names 1025. -/
theorem c8_deadlock_warning_amended (c n : Nat) :
    driver_deadlock_warning ((fun s => driver_cycle s false)^[n] (driver_after_commit c)) =
      if 1024 < n + 1 then some (n + 1) else Option.none := by
  rw [driver_nocommit_iterate]
  have h : c + 1 + n - c = n + 1 := by omega
  simp only [driver_deadlock_warning, h]

/-- C5: the transfer stage preserves the forward-cycle invariant
`0 ≤ forward_cycle ≤ MAX_FORWARDING_LATENCY` checked by `check_rob`:
every completed ROB's counter is incremented, and exactly when the
increment would exceed the maximum it is clamped to
`MAX_FORWARDING_LATENCY` and the ROB moves to
`rob_ready_to_writeback_list` of its own cluster. -/
theorem c5_forward_cycle_invariant (maxFwdLatency : Nat) (robs : List FwdRob)
    (h : check_rob_forward_cycle maxFwdLatency robs) :
    check_rob_forward_cycle maxFwdLatency (transfer maxFwdLatency robs) ∧
    (∀ r ∈ robs, r.completed = true → maxFwdLatency < r.fc + 1 →
      transfer_rob maxFwdLatency r =
        { r with fc := maxFwdLatency, completed := false,
                 readyToWritebackOf := some r.cluster }) ∧
    (∀ r ∈ robs, r.completed = true → r.fc + 1 ≤ maxFwdLatency →
      transfer_rob maxFwdLatency r = { r with fc := r.fc + 1 }) := by
  refine ⟨?_, ?_, ?_⟩
  · intro r hr hv
    simp only [transfer, List.mem_map] at hr
    obtain ⟨r0, hr0, rfl⟩ := hr
    have h0 := h r0 hr0
    by_cases hc : r0.completed
    · by_cases hlt : maxFwdLatency < r0.fc + 1
      · simp [transfer_rob, hc, hlt]
      · simp [transfer_rob, hc, hlt]
        omega
    · simp only [transfer_rob, hc, if_false, Bool.false_eq_true] at hv ⊢
      exact h0 hv
  · intro r _ hc hlt
    simp [transfer_rob, hc, hlt]
  · intro r _ hc hle
    have hlt : ¬maxFwdLatency < r.fc + 1 := by omega
    simp [transfer_rob, hc, hlt]

/-- Witness for `c5_forward_cycle_invariant`: one valid completed ROB
of cluster 0 at the maximum forwarding latency 2 is clamped and moved
to `ready_to_writeback` of cluster 0. -/
theorem c5_forward_cycle_invariant_witness :
    check_rob_forward_cycle 2 [⟨true, 0, 2, true, Option.none⟩] ∧
    check_rob_forward_cycle 2 (transfer 2 [⟨true, 0, 2, true, Option.none⟩]) ∧
    transfer_rob 2 ⟨true, 0, 2, true, Option.none⟩ = ⟨true, 0, 2, false, some 0⟩ :=
  ⟨by decide,
   (c5_forward_cycle_invariant 2 [⟨true, 0, 2, true, Option.none⟩] (by decide)).1,
   (c5_forward_cycle_invariant 2 [⟨true, 0, 2, true, Option.none⟩] (by decide)).2.1
     ⟨true, 0, 2, true, Option.none⟩ (by decide) (by decide) (by decide)⟩

/-- C3: with `LDQ_SIZE = 2` and a store queue of capacity
`STQ_SIZE = 4`, a store uop is refused by rename's structural check as
soon as `stores_in_flight` reaches 2, even though the store queue's own
capacity 4 is not reached: `ooocore.cpp` line 1486 compares
`stores_in_flight` against `LDQ_SIZE` instead of `STQ_SIZE` (the slip
is recorded in the spec's open questions). -/
theorem c3_store_rename_checked_against_ldq_size :
    rename_stall_check 2 false false false false true 0 2 true = some RenameStall.stqFull ∧
    (2 : Nat) < 4 := by decide

/-- C7: a branch uop whose produced RIP equals the predicted taken
target recorded in the uop is counted as a correct prediction, with no
annulment and no fetch-unit reset, and issue returns
`ISSUE_COMPLETED`; annulment or a fetch redirect can occur only when
the produced RIP differs from `uop.riptaken`. -/
theorem c7_branch_correct_prediction_no_annul (br valid : Bool) (data riptaken : Nat)
    (hbr : br = true) (hvalid : valid = true) :
    (data = riptaken →
      (issue_branch_check br valid data riptaken).correctCounted = true ∧
      (issue_branch_check br valid data riptaken).annulled = false ∧
      (issue_branch_check br valid data riptaken).fetchRip = Option.none ∧
      (issue_branch_check br valid data riptaken).result = ISSUE_COMPLETED) ∧
    ((issue_branch_check br valid data riptaken).annulled = true ∨
      (issue_branch_check br valid data riptaken).fetchRip ≠ Option.none →
      data ≠ riptaken) := by
  subst hbr hvalid
  constructor
  · intro he
    subst he
    simp [issue_branch_check]
  · intro hor he
    subst he
    simp [issue_branch_check] at hor

/-- Witness for `c7_branch_correct_prediction_no_annul` on a valid
branch that produced RIP 5 with predicted taken target 5. -/
theorem c7_branch_correct_prediction_no_annul_witness :
    (true = true) ∧
    (((5 : Nat) = 5 →
      (issue_branch_check true true 5 5).correctCounted = true ∧
      (issue_branch_check true true 5 5).annulled = false ∧
      (issue_branch_check true true 5 5).fetchRip = Option.none ∧
      (issue_branch_check true true 5 5).result = ISSUE_COMPLETED) ∧
    ((issue_branch_check true true 5 5).annulled = true ∨
      (issue_branch_check true true 5 5).fetchRip ≠ Option.none → (5 : Nat) ≠ 5)) :=
  ⟨rfl, c7_branch_correct_prediction_no_annul true true 5 5 rfl rfl⟩

/-! ## C4: annul return value -/

/-- Unfolding of `annul_return` in exception mode. -/
theorem annul_return_false (robs : List AnnulUop) (t : Nat) :
    annul_return robs t false =
      if annul_somidx robs t = robs.length then (robs.getD t default).rip
      else (robs.getD (annul_somidx robs t) default).rip := rfl

/-- Unfolding of `annul_return` in keep-misspec-uop mode. -/
theorem annul_return_true (robs : List AnnulUop) (t : Nat) :
    annul_return robs t true =
      if annul_eomidx robs t + 1 = robs.length then (robs.getD t default).rip
      else (robs.getD (annul_eomidx robs t + 1) default).riptaken := rfl

/-- C4 counterexample: for the ROB contents `c4_robs_cx` — a
mispredicted single-uop branch macro-op at index 0 whose own taken
target is 200, followed by one younger uop whose `riptaken` field is
999 — `annul(true)` returns 999, the `riptaken` of the first annulled
ROB entry at `eomidx + 1`, not the triggering branch's taken target. -/
theorem c4_annul_return_counterexample :
    annul_return c4_robs_cx 0 true = 999 ∧
    (c4_robs_cx.getD 0 default).riptaken = 200 ∧
    annul_return c4_robs_cx 0 true ≠ (c4_robs_cx.getD 0 default).riptaken := by
  decide

/-- C4 (amended): `annul(false)` returns the RIP of the SOM uop of the
triggering macro-op, which equals the triggering uop's own RIP because
the uops of one macro-op decode from one x86 instruction and share
their RIP (hypothesis `hshared`); `annul(true)` returns the triggering
uop's own RIP when no younger uop exists
(`startidx == ROB.tail`), and otherwise the `riptaken` field of the
first annulled ROB entry, the one at `eomidx + 1` — not in general the
branch's own taken target. -/
theorem c4_annul_return_amended (robs : List AnnulUop) (t : Nat)
    (ht : t < robs.length)
    (hshared : ∀ i, annul_somidx robs t ≤ i → i ≤ t →
      (robs.getD i default).rip = (robs.getD t default).rip) :
    annul_return robs t false = (robs.getD t default).rip ∧
    (annul_eomidx robs t + 1 = robs.length →
      annul_return robs t true = (robs.getD t default).rip) ∧
    (annul_eomidx robs t + 1 < robs.length →
      annul_return robs t true = (robs.getD (annul_eomidx robs t + 1) default).riptaken) := by
  have hsom_le : annul_somidx robs t ≤ t := by
    unfold annul_somidx
    exact Nat.sub_le _ _
  refine ⟨?_, ?_, ?_⟩
  · have hne : annul_somidx robs t ≠ robs.length := by omega
    rw [annul_return_false, if_neg hne]
    exact hshared _ le_rfl hsom_le
  · intro h
    rw [annul_return_true, if_pos h]
  · intro h
    rw [annul_return_true, if_neg (by omega)]

/-- Witness for `c4_annul_return_amended` on `c4_robs_w` with the
branch at index 0: exception mode returns its RIP 100, and
keep-misspec-uop mode returns 55, the `riptaken` of the entry at
`eomidx + 1 = 1`. -/
theorem c4_annul_return_amended_witness :
    (0 : Nat) < c4_robs_w.length ∧
    (annul_return c4_robs_w 0 false = (c4_robs_w.getD 0 default).rip ∧
     (annul_eomidx c4_robs_w 0 + 1 = c4_robs_w.length →
       annul_return c4_robs_w 0 true = (c4_robs_w.getD 0 default).rip) ∧
     (annul_eomidx c4_robs_w 0 + 1 < c4_robs_w.length →
       annul_return c4_robs_w 0 true =
         (c4_robs_w.getD (annul_eomidx c4_robs_w 0 + 1) default).riptaken)) :=
  ⟨by decide,
   c4_annul_return_amended c4_robs_w 0 (by decide)
     (fun i _ h2 => by interval_cases i; rfl)⟩

/-! ## C2: commit eligibility and exceptions -/

/-- If the macro-op scan allows the commit, every uop of the macro-op
range still in the ROB is ready to commit and exception-free. -/
theorem commit_scan_commitable_all_ready (l : List CommitSubRob)
    (h : commit_scan l = .commitable) :
    ∀ e ∈ uop_range_to_eom l, e.ready = true ∧ e.exc = false := by
  induction l with
  | nil => simp [uop_range_to_eom]
  | cons r rest ih =>
    by_cases hr : r.ready = true
    · by_cases hx : r.exc = true
      · exfalso
        simp [commit_scan, hr, hx] at h
      · by_cases he : r.eom = true
        · intro e hee
          simp only [uop_range_to_eom, he, if_pos, List.mem_singleton] at hee
          subst hee
          exact ⟨hr, by simpa using hx⟩
        · intro e hee
          simp only [uop_range_to_eom, he, if_neg, List.mem_cons,
            Bool.not_eq_true] at hee
          rcases hee with rfl | hee
          · exact ⟨hr, by simpa using hx⟩
          · exact ih (by simpa [commit_scan, hr, hx, he] using h) e hee
    · exfalso
      simp [commit_scan, hr] at h

/-- The macro-op scan stops with the exception of the first ready,
excepting uop, provided every uop before it is ready, exception-free
and not an EOM. -/
theorem commit_scan_excepted_of_prefix (pre : List CommitSubRob) (r : CommitSubRob)
    (rest : List CommitSubRob)
    (hpre : ∀ p ∈ pre, p.ready = true ∧ p.exc = false ∧ p.eom = false)
    (hr : r.ready = true) (hx : r.exc = true) :
    commit_scan (pre ++ r :: rest) = .excepted r.excData := by
  induction pre with
  | nil => simp [commit_scan, hr, hx]
  | cons p pre ih =>
    obtain ⟨h1, h2, h3⟩ := hpre p (by simp)
    simp only [List.cons_append, commit_scan, h1, h2, h3, Bool.not_true,
      Bool.false_eq_true, if_false]
    exact ih fun q hq => hpre q (by simp [hq])

/-- C2 counterexample: in `c2_robs_cx` the macro-op's second (EOM) uop
carries an exception, but the head uop is not yet `ready_to_commit`;
the scan stops at the unready uop and `commit` returns
`COMMIT_RESULT_NONE`, not the EXCEPTION result the claim requires
whenever any uop of the range has an exception. -/
theorem c2_commit_exception_counterexample :
    (∃ e ∈ uop_range_to_eom c2_robs_cx, e.exc = true) ∧
    (ReorderBufferEntry_commit c2_regs_cx c2_st_cx c2_uop_cx c2_robs_cx).1 =
      CommitResult.none ∧
    CommitResult.none ≠ CommitResult.exception := by
  decide

/-- C2 (amended): a uop at the ROB head commits (result OK or BARRIER)
only when every uop of its macro-op still in the ROB, from the head
through the EOM uop, is in `ready_to_commit` and exception-free; when
the forward walk from the head reaches a ready uop with an exception
and every earlier uop is ready, exception-free and not an EOM, commit
returns the EXCEPTION result for the whole macro-op and leaves all
architectural state (commitRRT, architectural RIP and flags, memory)
unchanged; when it instead stops at a uop not yet ready the result is
NONE, again leaving the architectural state unchanged. -/
theorem c2_commit_macro_op (regs : ArchRegs) (st : ArchState) (uop : CommitUop)
    (subrobs : List CommitSubRob) :
    ((ReorderBufferEntry_commit regs st uop subrobs).1 = CommitResult.ok ∨
      (ReorderBufferEntry_commit regs st uop subrobs).1 = CommitResult.barrier →
      ∀ e ∈ uop_range_to_eom subrobs, e.ready = true ∧ e.exc = false) ∧
    (∀ pre r rest, subrobs = pre ++ r :: rest →
      (∀ p ∈ pre, p.ready = true ∧ p.exc = false ∧ p.eom = false) →
      r.ready = true → r.exc = true →
      (ReorderBufferEntry_commit regs st uop subrobs).1 = CommitResult.exception ∧
      (ReorderBufferEntry_commit regs st uop subrobs).2 = st) ∧
    ((ReorderBufferEntry_commit regs st uop subrobs).1 = CommitResult.none →
      (ReorderBufferEntry_commit regs st uop subrobs).2 = st) := by
  refine ⟨?_, ?_, ?_⟩
  · intro hok
    rcases hscan : commit_scan subrobs with _ | code | _
    · simp [ReorderBufferEntry_commit, hscan] at hok
    · simp [ReorderBufferEntry_commit, hscan] at hok
    · exact commit_scan_commitable_all_ready subrobs hscan
  · intro pre r rest heq hpre hr hx
    subst heq
    have hscan := commit_scan_excepted_of_prefix pre r rest hpre hr hx
    simp [ReorderBufferEntry_commit, hscan]
  · intro hnone
    rcases hscan : commit_scan subrobs with _ | code | _
    · simp [ReorderBufferEntry_commit, hscan]
    · simp [ReorderBufferEntry_commit, hscan] at hnone
    · exfalso
      by_cases hb : uop.isBarrier
      · simp [ReorderBufferEntry_commit, hscan, hb] at hnone
      · simp [ReorderBufferEntry_commit, hscan, hb] at hnone

/-- Witness for `c2_commit_macro_op`: a single ready EOM uop with an
exception makes commit return EXCEPTION and leaves the architectural
state `c2_st_cx` untouched. -/
theorem c2_commit_macro_op_witness :
    ([(⟨true, true, 5, true⟩ : CommitSubRob)] =
      [] ++ (⟨true, true, 5, true⟩ : CommitSubRob) :: []) ∧
    (ReorderBufferEntry_commit c2_regs_cx c2_st_cx c2_uop_cx
        [⟨true, true, 5, true⟩]).1 = CommitResult.exception ∧
    (ReorderBufferEntry_commit c2_regs_cx c2_st_cx c2_uop_cx
        [⟨true, true, 5, true⟩]).2 = c2_st_cx :=
  ⟨rfl,
   (c2_commit_macro_op c2_regs_cx c2_st_cx c2_uop_cx [⟨true, true, 5, true⟩]).2.1
     [] ⟨true, true, 5, true⟩ [] rfl (by simp) (by decide) (by decide)⟩

/-! ## C1: store-issue alias detection -/

/-- C1: when a store reaches the point in `issuestore` where its
address is resolved without exception (`hexc`) and all operands
including any inherited SFR are ready (`hready`), and some later load
LSQ entry has a valid address to the same 8-byte block (`halias`), then
`issuestore` finds the first such load, marks the store's LSQ entry
invalid with data `EXCEPTION_LoadStoreAliasing` (datavalid set),
inserts that load's RIP into the load/store alias predictor, calls
`annul_after_and_including()` (annulling everything from the store
onwards, which includes the load), resets the fetch unit to the store's
own RIP, and returns `ISSUE_MISSPECULATED`. -/
theorem c1_store_alias_misspeculation (cfg : StoreConfig) (mapped : Nat → Bool)
    (aligntype : Aligntype) (sizeshift : Nat) (internal : Bool)
    (rip ra rb rc : Nat) (rcready : Bool) (prior later : List LSQScanEntry)
    (hexc : store_exception cfg mapped aligntype sizeshift internal ra rb = 0)
    (hready : store_ready
      (find_sfra (store_addr cfg aligntype sizeshift ra rb).physaddr prior) rcready = true)
    (halias : ∃ e ∈ later, e.store = false ∧ e.addrvalid = true ∧
      e.physaddr = (store_addr cfg aligntype sizeshift ra rb).physaddr) :
    ∃ ld, find_alias_load (store_addr cfg aligntype sizeshift ra rb).physaddr later =
        some ld ∧
      ld.store = false ∧ ld.addrvalid = true ∧
      ld.physaddr = (store_addr cfg aligntype sizeshift ra rb).physaddr ∧
      issuestore cfg mapped aligntype sizeshift internal rip ra rb rc rcready prior later =
        { path := StorePath.aliasMisspec
          state := { physaddr := (store_addr cfg aligntype sizeshift ra rb).physaddr
                     invalid := true, datavalid := true, addrvalid := true
                     data := cfg.excLoadStoreAliasing, bytemask := 0 }
          result := ISSUE_MISSPECULATED, lsapInsert := some ld.rip
          annulIncludingSelf := true, fetchRip := some rip, rsSfra := Option.none } := by
  obtain ⟨e, hme, he1, he2, he3⟩ := halias
  have hex : ∃ x ∈ later,
      (fun e => !e.store && e.addrvalid &&
        e.physaddr == (store_addr cfg aligntype sizeshift ra rb).physaddr) x = true :=
    ⟨e, hme, by simp [he1, he2, he3]⟩
  obtain ⟨ld, hfindr, hp⟩ := find_some_of_exists hex
  have hfind : find_alias_load (store_addr cfg aligntype sizeshift ra rb).physaddr later =
      some ld := hfindr
  simp only [Bool.and_eq_true, Bool.not_eq_true', beq_iff_eq] at hp
  obtain ⟨⟨hld1, hld2⟩, hld3⟩ := hp
  refine ⟨ld, hfind, hld1, hld2, hld3, ?_⟩
  simp [issuestore, hexc, hready, hfind]

/-- Witness for `c1_store_alias_misspeculation`: an aligned, mapped
1-byte store at address 8 (block 1) by the uop at RIP 11, with no prior
stores, a ready `rc`, and one later load with a valid address on block
1 owned by the uop at RIP 22. -/
theorem c1_store_alias_misspeculation_witness :
    store_exception store_cfg_w (fun _ => true) Aligntype.normal 0 false 8 0 = 0 ∧
    store_ready (find_sfra (store_addr store_cfg_w Aligntype.normal 0 8 0).physaddr [])
      true = true ∧
    (∃ e ∈ [c1_load_w], e.store = false ∧ e.addrvalid = true ∧
      e.physaddr = (store_addr store_cfg_w Aligntype.normal 0 8 0).physaddr) ∧
    (∃ ld, find_alias_load (store_addr store_cfg_w Aligntype.normal 0 8 0).physaddr
        [c1_load_w] = some ld ∧
      ld.store = false ∧ ld.addrvalid = true ∧
      ld.physaddr = (store_addr store_cfg_w Aligntype.normal 0 8 0).physaddr ∧
      issuestore store_cfg_w (fun _ => true) Aligntype.normal 0 false 11 8 0 7 true []
          [c1_load_w] =
        { path := StorePath.aliasMisspec
          state := { physaddr := (store_addr store_cfg_w Aligntype.normal 0 8 0).physaddr
                     invalid := true, datavalid := true, addrvalid := true
                     data := store_cfg_w.excLoadStoreAliasing, bytemask := 0 }
          result := ISSUE_MISSPECULATED, lsapInsert := some ld.rip
          annulIncludingSelf := true, fetchRip := some 11, rsSfra := Option.none }) :=
  ⟨by decide, by decide, by decide,
   c1_store_alias_misspeculation store_cfg_w (fun _ => true) Aligntype.normal 0 false
     11 8 0 7 true [] [c1_load_w] (by decide) (by decide) (by decide)⟩

/-! ## C6: contained high-half store raises no page fault -/

/-- C6: for a store of the high-half split variant (`LDST_ALIGN_HI`)
whose original user access lies entirely within the low 8-byte block —
precisely the `annul` condition computed at `ooocore.cpp` 2277 — the
exception check of `issuestore` returns no exception at all, whatever
the page mapping says about the high block (the `mapped` oracle is
arbitrary, in particular everywhere false), so `issuestore` never takes
the page-fault or unaligned-exception returns.  `sizeshift ≤ 3`
(accesses of at most 8 bytes) and `VIRT_ADDR_BITS ≥ 3` reflect the
x86-64 machine bounds. -/
theorem c6_high_store_contained_no_pagefault (cfg : StoreConfig) (mapped : Nat → Bool)
    (sizeshift : Nat) (internal : Bool) (rip ra rb rc : Nat) (rcready : Bool)
    (prior later : List LSQScanEntry)
    (hss : sizeshift ≤ 3) (hvb : 3 ≤ cfg.virtAddrBits)
    (hlow : floor8 ((store_addr cfg .hi sizeshift ra rb).origaddr + (2 ^ sizeshift - 1)) =
      floor8 (store_addr cfg .hi sizeshift ra rb).origaddr) :
    store_exception cfg mapped .hi sizeshift internal ra rb = 0 ∧
    (issuestore cfg mapped .hi sizeshift internal rip ra rb rc rcready prior later).path ≠
      StorePath.exceptionComplete ∧
    (issuestore cfg mapped .hi sizeshift internal rip ra rb rc rcready prior later).path ≠
      StorePath.unalignedMisspec := by
  have hannul : (store_addr cfg .hi sizeshift ra rb).annul = true := by
    simp only [store_addr] at hlow ⊢
    simpa [beq_iff_eq] using hlow
  have h8a : (8 : Nat) ∣ (store_addr cfg .hi sizeshift ra rb).addr := by
    have hfl : (8 : Nat) ∣ floor8 (Nat.land ((ra + rb) % 2 ^ 64) cfg.virtAddrMask) := by
      unfold floor8
      exact dvd_mul_left 8 _
    have hbase : (8 : Nat) ∣
        floor8 (Nat.land ((ra + rb) % 2 ^ 64) cfg.virtAddrMask) + 8 :=
      Nat.dvd_add hfl dvd_rfl
    have h8m : (8 : Nat) ∣ 2 ^ cfg.virtAddrBits := by
      have := pow_dvd_pow 2 hvb
      simpa using this
    simpa [store_addr, lowbits, floor8] using (Nat.dvd_mod_iff h8m).mpr hbase
  have halign : lowbits (store_addr cfg .hi sizeshift ra rb).addr sizeshift = 0 := by
    have hss8 : (2 : Nat) ^ sizeshift ∣ 8 := by
      have := pow_dvd_pow 2 hss
      simpa using this
    exact Nat.mod_eq_zero_of_dvd (dvd_trans hss8 h8a)
  have hexc : store_exception cfg mapped .hi sizeshift internal ra rb = 0 := by
    simp [store_exception, check_access_alignment, halign, hannul]
  have hpaths :
      (issuestore cfg mapped .hi sizeshift internal rip ra rb rc rcready prior later).path =
        StorePath.replay ∨
      (issuestore cfg mapped .hi sizeshift internal rip ra rb rc rcready prior later).path =
        StorePath.aliasMisspec ∨
      (issuestore cfg mapped .hi sizeshift internal rip ra rb rc rcready prior later).path =
        StorePath.merged := by
    simp only [issuestore, hexc, ne_eq, not_true_eq_false, if_false]
    split
    · left; rfl
    · split
      · right; left; rfl
      · right; right; rfl
  refine ⟨hexc, ?_, ?_⟩
  · rcases hpaths with h | h | h <;> simp [h]
  · rcases hpaths with h | h | h <;> simp [h]

/-- Witness for `c6_high_store_contained_no_pagefault`: a 1-byte
high-half store whose user access is the single byte at address 1
(entirely inside the low block), with every page unmapped
(`fun _ => false`): no exception is computed and `issuestore` takes
neither exception return. -/
theorem c6_high_store_contained_no_pagefault_witness :
    (0 : Nat) ≤ 3 ∧ (3 : Nat) ≤ store_cfg_w.virtAddrBits ∧
    floor8 ((store_addr store_cfg_w Aligntype.hi 0 1 0).origaddr + (2 ^ 0 - 1)) =
      floor8 (store_addr store_cfg_w Aligntype.hi 0 1 0).origaddr ∧
    store_exception store_cfg_w (fun _ => false) Aligntype.hi 0 false 1 0 = 0 ∧
    (issuestore store_cfg_w (fun _ => false) Aligntype.hi 0 false 5 1 0 0 true [] []).path ≠
      StorePath.exceptionComplete ∧
    (issuestore store_cfg_w (fun _ => false) Aligntype.hi 0 false 5 1 0 0 true [] []).path ≠
      StorePath.unalignedMisspec := by
  have h := c6_high_store_contained_no_pagefault store_cfg_w (fun _ => false) 0 false
    5 1 0 0 true [] [] (by decide) (by decide) (by decide)
  exact ⟨by decide, by decide, by decide, h.1, h.2.1, h.2.2⟩

end PTLsim
